import Mathlib

/-!
Verification of the multi-service AI job processor
(`container-app/multi_service_processor.py` together with
`container-app/ailibs/style_transfer.py`).

The Python code is shallowly embedded: every effectful step whose outcome is
decided outside the embedded code (Azure SDK calls, model construction,
base64/PIL decoding, ChromaDB queries, Ollama generation, CSV reads, JSON
parsing) is supplied as an explicit oracle value of type `Except String _`
(`Except.error e` models a raised Python exception whose `str` is `e`).
Object attribute state (`self.*`) is threaded explicitly through a `PState`
record, and the blob store is an association list from blob names to the
JSON-like result records the processor uploads.  Wall-clock fields of the
uploaded dictionaries (`timestamp`, `processing_time`, `start_time`) are not
represented: no claim mentions them.
-/

namespace MultiSvc

/-- A PIL image, abstracted to the data the claims are about: its pixel
dimensions.  `thumbnail` only rewrites dimensions; pixel contents are opaque. -/
structure PilImage where
  width : Nat
  height : Nat
  deriving Repr, DecidableEq

/-- One row of `/app/Recommendation/tourism_with_id.csv` as read by
`pd.read_csv` and accessed by `process_recommendation`.  Numeric cells are
embedded as exact rationals / integers (the claims never depend on float
rounding).  `Time_Minutes` is nullable in the real CSV, hence `Option`. -/
structure TourismRow where
  place_Id : Nat
  place_Name : String
  description : String
  category : String
  city : String
  price : Int
  rating : Rat
  time_Minutes : Option Rat
  lat : Rat
  long : Rat
  deriving Repr, DecidableEq

/-- The `preferences` mapping of a recommendation job: optional keys
`category`, `city`, `max_price`, `min_rating` (`none` = key absent). -/
structure Preferences where
  category : Option String := none
  city : Option String := none
  max_price : Option Int := none
  min_rating : Option Rat := none
  deriving Repr, DecidableEq

/-- A dequeued job dictionary (the result of `json.loads` on a message body).
Fields other than `job_id` are optional: Python dict lookups on absent keys
raise `KeyError`, which the embedding models by the corresponding `Option`
being `none`.  Jobs whose bodies lack `job_id` are outside every claim (the
handlers would crash while *building* the error result); the parse oracle
therefore only produces jobs carrying a `job_id`. -/
structure Job where
  job_id : String
  content_image : Option String := none
  style_image : Option String := none
  strength : Option Rat := none
  question : Option String := none
  user_id : Option String := none
  preferences : Option Preferences := none
  limit : Option Nat := none
  deriving Repr, DecidableEq

/-- One projected recommendation record, as appended to `recommendation_list`
by `process_recommendation` (the fixed output schema). -/
structure RecRecord where
  place_id : Nat
  place_name : String
  description : String
  category : String
  city : String
  price : Int
  rating : Rat
  time_minutes : Option Rat
  latitude : Rat
  longitude : Rat
  deriving Repr, DecidableEq

/-- The JSON-like dictionary a handler uploads to blob storage.  Unused
service-specific fields are `none`; `timestamp` / `processing_time` are not
modelled (wall clock). -/
structure ResultData where
  job_id : String
  service_type : String
  status : String
  error : Option String := none
  result_image : Option String := none
  question : Option String := none
  answer : Option String := none
  context_used : Option Bool := none
  user_id : Option String := none
  preferences_used : Option Preferences := none
  recommendations : Option (List RecRecord) := none
  total_found : Option Nat := none
  deriving Repr, DecidableEq

/-- The blob container, as a list of (blob name, content) pairs. -/
def Store := List (String × ResultData)

/-- `blob_client.upload_blob(..., overwrite=True)` at a given blob name:
the blob at that name is replaced (or created). -/
def storePut (store : Store) (k : String) (v : ResultData) : Store :=
  (k, v) :: (store.filter fun kv => kv.1 ≠ k)

/-- Read back the blob at a name (none = no such blob). -/
def storeGet (store : Store) (k : String) : Option ResultData :=
  (store.find? fun kv => kv.1 = k).map Prod.snd

/-- Number of blobs stored at a name. -/
def storeCount (store : Store) (k : String) : Nat :=
  store.countP fun kv => kv.1 = k

/-- `MultiServiceProcessor.upload_result`: uploads the result dictionary to
blob `results/<job_id>.json` with `overwrite=True`. -/
def upload_result (job_id : String) (result_data : ResultData) (store : Store) : Store :=
  storePut store ("results/" ++ job_id ++ ".json") result_data

/-- The blob name `upload_result` writes for a given job id. -/
def resultKey (job_id : String) : String := "results/" ++ job_id ++ ".json"

/-- The mutable attribute state of a `MultiServiceProcessor` instance.
`none` in the `Option` fields means the attribute was never assigned
(accessing it would raise `AttributeError`). -/
structure PState where
  style_transfer_loaded : Bool := false
  rag_system_loaded : Bool := false
  recommendation_data_loaded : Bool := false
  ollama_client : Option Bool := none
  tourism_df : Option (List TourismRow) := none
  tourism_rating_df : Option Unit := none
  user_df : Option Unit := none
  deriving Repr, DecidableEq

/-! ### Service loaders -/

/-- `MultiServiceProcessor.load_style_transfer_model`, one call.
`modelLoad` is the outcome the opaque `ailibs.style_transfer.model_load()`
would have on this attempt.  Returns the call outcome (an exception
propagates) and the updated state. -/
def load_style_transfer_model (modelLoad : Except String Unit) (ps : PState) :
    Except String Unit × PState :=
  if ps.style_transfer_loaded then (Except.ok Unit.unit, ps)
  else
    match modelLoad with
    | Except.ok _ => (Except.ok Unit.unit, { ps with style_transfer_loaded := true })
    | Except.error e => (Except.error e, ps)

/-- `MultiServiceProcessor.load_rag_system`, one call.  `chromaInit` is the
outcome of building the ChromaDB client and fetching the collection;
`ollamaAvail` records whether `from ollama import Client` succeeds (an
`ImportError` is caught inside the loader and leaves `ollama_client = None`,
still a successful load). -/
def load_rag_system (chromaInit : Except String Unit) (ollamaAvail : Bool) (ps : PState) :
    Except String Unit × PState :=
  if ps.rag_system_loaded then (Except.ok Unit.unit, ps)
  else
    match chromaInit with
    | Except.ok _ =>
        (Except.ok Unit.unit,
         { ps with rag_system_loaded := true, ollama_client := some ollamaAvail })
    | Except.error e => (Except.error e, ps)

/-- `MultiServiceProcessor.load_recommendation_data`, one call.  The three
`pd.read_csv` calls are separate oracles; a failure part-way leaves the
earlier dataframe attributes assigned but the loaded flag unset, exactly as
in the Python (assignment order: tourism, tourism_rating, user, then flag). -/
def load_recommendation_data (readTourism : Except String (List TourismRow))
    (readRating readUser : Except String Unit) (ps : PState) :
    Except String Unit × PState :=
  if ps.recommendation_data_loaded then (Except.ok Unit.unit, ps)
  else
    match readTourism with
    | Except.error e => (Except.error e, ps)
    | Except.ok df =>
      let ps1 := { ps with tourism_df := some df }
      match readRating with
      | Except.error e => (Except.error e, ps1)
      | Except.ok _ =>
        let ps2 := { ps1 with tourism_rating_df := some () }
        match readUser with
        | Except.error e => (Except.error e, ps2)
        | Except.ok _ =>
          (Except.ok Unit.unit,
           { ps2 with user_df := some (), recommendation_data_loaded := true })

/-- A whole sequence of calls to `load_style_transfer_model` on one processor
instance.  `outcomes` gives, call by call, the outcome `model_load()` would
have if construction were entered on that call.  Returns the per-call
results, the final flag, and how many calls actually entered construction. -/
def loaderCalls (outcomes : List (Except String Unit)) (ps : PState) :
    List (Except String Unit) × PState × Nat :=
  match outcomes with
  | [] => ([], ps, 0)
  | o :: rest =>
    let entered : Nat := if ps.style_transfer_loaded then 0 else 1
    let (res, ps1) := load_style_transfer_model o ps
    let (rs, fin, n) := loaderCalls rest ps1
    (res :: rs, fin, entered + n)

/-- `ailibs.style_transfer.model_load`: caches the constructed pipeline in the
module-global `ip_model` and returns it immediately when already set.  The
handle is abstracted to a `Nat` token; `construct` is the outcome of the
download-and-build body.  The returned `Bool` records whether construction
ran on this call. -/
def model_load (construct : Except String Nat) (ip_model : Option Nat) :
    Except String Nat × Option Nat × Bool :=
  match ip_model with
  | some m => (Except.ok m, some m, false)
  | none =>
    match construct with
    | Except.ok m => (Except.ok m, some m, true)
    | Except.error e => (Except.error e, none, true)

/-! ### Python call binding

`process_style_transfer` invokes `style_trans(content_image, style_image,
strength=...)`.  CPython binds the supplied arguments against the callee
parameter list before the body runs; `bindCall` embeds that binding for a
function with no defaults, no `*args` and no `**kwargs`, with CPython's check
order (unexpected keyword before missing-argument). -/

/-- Bind `npos` positional arguments plus keyword arguments named `kwargs`
against the parameter list `params`; `Except.error` models the `TypeError`
CPython raises when binding fails. -/
def bindCall (params : List String) (npos : Nat) (kwargs : List String) :
    Except String Unit :=
  if params.length < npos then
    Except.error "TypeError: too many positional arguments"
  else if kwargs.any (fun k => !params.contains k) then
    Except.error "TypeError: unexpected keyword argument"
  else if kwargs.any (fun k => (params.take npos).contains k) then
    Except.error "TypeError: got multiple values for argument"
  else if (params.drop npos).any (fun p => !kwargs.contains p) then
    Except.error "TypeError: missing required positional arguments"
  else Except.ok Unit.unit

/-- The parameter list of `ailibs.style_transfer.style_trans`. -/
def style_trans_params : List String :=
  ["content_image_b64", "style_image_b64", "influence", "creativity", "additional_prompt"]

/-! ### PIL thumbnail dimension arithmetic

`Image.thumbnail((512, 512), LANCZOS)` resizes in place to fit inside the
bounding box while preserving aspect ratio; if the image already fits it is
left unchanged.  The dimension computation below is PIL's
`preserve_aspect_ratio`, with the float expressions carried out in exact
natural-number arithmetic (every comparison PIL makes on `float` ratios is a
comparison of rationals with moderate numerators, exactly representable). -/

/-- PIL `round_aspect(y * aspect, key=lambda n: abs(aspect - n / y))` where
`aspect = w / h`: the closer of floor and ceiling of `y * w / h` (ties to the
floor), clamped below by 1. -/
def roundAspectX (y w h : Nat) : Nat :=
  let f := y * w / h
  let c := (y * w + h - 1) / h
  let pick := if y * w - f * h ≤ c * h - y * w then f else c
  max pick 1

/-- PIL `round_aspect(x / aspect, key=lambda n: 0 if n == 0 else abs(aspect - x / n))`
where `aspect = w / h`: floor or ceiling of `x * h / w`, chosen by comparing
`abs(w / h - x / n)` at the two candidates (cross-multiplied to naturals;
ties and the `n = 0` special case go to the floor), clamped below by 1. -/
def roundAspectY (x w h : Nat) : Nat :=
  let f := x * h / w
  let c := (x * h + w - 1) / w
  let pick :=
    if f = 0 then f
    else if (x * h - f * w) * c ≤ (c * w - x * h) * f then f else c
  max pick 1

/-- The new (width, height) of `img.thumbnail((sizeW, sizeH))` for an image of
dimensions `w × h`: unchanged when it already fits, otherwise the larger
scaling constraint wins (`sizeW / sizeH ≥ w / h` compared cross-multiplied). -/
def thumbnailDims (w h sizeW sizeH : Nat) : Nat × Nat :=
  if sizeW ≥ w ∧ sizeH ≥ h then (w, h)
  else if sizeH * w ≤ sizeW * h then (roundAspectX sizeH w h, sizeH)
  else (sizeW, roundAspectY sizeW w h)

/-- In-place `img.thumbnail((sizeW, sizeH), LANCZOS)` on the dimension
abstraction. -/
def thumbnail (img : PilImage) (sizeW sizeH : Nat) : PilImage :=
  let wh := thumbnailDims img.width img.height sizeW sizeH
  ⟨wh.1, wh.2⟩

/-! ### `ailibs.style_transfer.style_trans` -/

/-- The argument record of the one `ip_model.generate(...)` invocation inside
`style_trans` (the generation collaborator call). -/
structure GenCall where
  pil_image : PilImage
  control_image : PilImage
  prompt : String
  negative_prompt : String
  scale : Rat
  guidance_scale : Rat
  height : Nat
  width : Nat
  deriving Repr, DecidableEq

/-- Oracles for the effectful steps inside `style_trans` / `model_load`. -/
structure STOracles where
  construct : Except String Nat
  decode : String → Except String PilImage
  ipHasGenerate : Bool
  genResult : GenCall → Except String PilImage

/-- Everything observable about one `style_trans` invocation: its outcome, the
`generate` call it made (if it reached one), and the module-global `ip_model`
afterwards. -/
structure STOutcome where
  result : Except String PilImage
  genCall : Option GenCall
  ip_model : Option Nat
  deriving Repr

/-- The fixed base prompt of `style_trans`, concatenated with the free-text
`additional_prompt`. -/
def styleTransPrompt (additional_prompt : String) : String :=
  "a profile picture or avatar, fun, artistic, represent indonesian culture, traditional, art, fit for poster, good for instagram\n"
    ++ additional_prompt ++ ".\n"
    ++ "suitable for sharing on social media like Instagram."

/-- The fixed negative prompt of `style_trans`. -/
def styleTransNegativePrompt : String :=
  "nsfw, nude, mutated, ugly, watermark, lowres, low quality, worst quality, deformed, glitch, low contrast, noisy, saturation, blurry, boring, too formal, bad anatomy, propaganda, politics."

/-- The body of `style_trans` after the `ip_model` gate: decode both base64
payloads (each a composite of the base64 decode, `Image.open` and the RGB
conversion inside `decode_base64_image`), thumbnail both to fit 512×512, build
the prompts, take a Canny edge map of the content image (`cv2.Canny`
preserves dimensions), and invoke `generate`; when the loaded object has no
`generate` attribute the fallback branch returns the (thumbnailed) content
image.  Any exception is re-raised as
`RuntimeError("Style transfer failed: <e>")`. -/
def style_trans_loaded (o : STOracles) (content_image_b64 style_image_b64 : String)
    (influence creativity : Rat) (additional_prompt : String) (ip : Option Nat) : STOutcome :=
  match o.decode content_image_b64 with
  | Except.error e => ⟨Except.error ("Style transfer failed: " ++ e), none, ip⟩
  | Except.ok content0 =>
    match o.decode style_image_b64 with
    | Except.error e => ⟨Except.error ("Style transfer failed: " ++ e), none, ip⟩
    | Except.ok style0 =>
      let content_image := thumbnail content0 512 512
      let style_image := thumbnail style0 512 512
      if o.ipHasGenerate then
        let canny_image : PilImage := ⟨content_image.width, content_image.height⟩
        let call : GenCall :=
          { pil_image := style_image, control_image := canny_image,
            prompt := styleTransPrompt additional_prompt,
            negative_prompt := styleTransNegativePrompt,
            scale := influence, guidance_scale := min creativity 15,
            height := 512, width := 512 }
        match o.genResult call with
        | Except.ok img => ⟨Except.ok img, some call, ip⟩
        | Except.error e => ⟨Except.error ("Style transfer failed: " ++ e), some call, ip⟩
      else
        ⟨Except.ok content_image, none, ip⟩

/-- `style_trans` itself: load the global `ip_model` if still unset, then run
the body. -/
def style_trans (o : STOracles) (content_image_b64 style_image_b64 : String)
    (influence creativity : Rat) (additional_prompt : String) (ip0 : Option Nat) : STOutcome :=
  match ip0 with
  | some m =>
      style_trans_loaded o content_image_b64 style_image_b64 influence creativity
        additional_prompt (some m)
  | none =>
    match model_load o.construct none with
    | (Except.ok _, ip1, _) =>
        style_trans_loaded o content_image_b64 style_image_b64 influence creativity
          additional_prompt ip1
    | (Except.error e, ip1, _) =>
        ⟨Except.error ("Style transfer failed: " ++ e), none, ip1⟩

/-! ### Service handlers -/

/-- The oracle bundle for a processor run: outcomes of every external call the
handlers and the dispatcher make, keyed by their inputs where the input
matters.  A fixed bundle models a deterministic environment. -/
structure Oracles where
  parse : String → Except String Job
  stLoad : Except String Unit
  decodeImage : String → Except String PilImage
  chromaInit : Except String Unit
  ollamaAvail : Bool
  ragQuery : String → Except String (List (List String))
  ollamaGen : String → Except String String
  readTourism : Except String (List TourismRow)
  readRating : Except String Unit
  readUser : Except String Unit

/-- The error dictionary built in a handler exception branch. -/
def error_result (job : Job) (service_type e : String) : ResultData :=
  { job_id := job.job_id, service_type := service_type, status := "error", error := some e }

/-- `MultiServiceProcessor.process_style_transfer`.  The whole body is a
`try` whose `except` branch uploads an error result and then re-raises; every
step that can raise therefore routes through `fail`.  The call
`style_trans(content_image, style_image, strength=...)` is embedded as the
CPython argument binding of 2 positional arguments plus the keyword
`strength` against `style_trans_params` (the callee body would only run if
binding succeeded).  `decodeImage` collapses `base64.b64decode` and
`Image.open` into one composite outcome per payload string. -/
def process_style_transfer (o : Oracles) (job : Job) (ps : PState) (store : Store) :
    Except String ResultData × PState × Store :=
  let fail := fun (e : String) (ps1 : PState) =>
    (Except.error e, ps1, upload_result job.job_id (error_result job "style_transfer" e) store)
  match load_style_transfer_model o.stLoad ps with
  | (Except.error e, ps1) => fail e ps1
  | (Except.ok _, ps1) =>
    match job.content_image with
    | none => fail "KeyError: content_image" ps1
    | some content_b64 =>
      match o.decodeImage content_b64 with
      | Except.error e => fail e ps1
      | Except.ok _content_image =>
        match job.style_image with
        | none => fail "KeyError: style_image" ps1
        | some style_b64 =>
          match o.decodeImage style_b64 with
          | Except.error e => fail e ps1
          | Except.ok _style_image =>
            match bindCall style_trans_params 2 ["strength"] with
            | Except.error e => fail e ps1
            | Except.ok _ =>
              -- dead branch: the binding above never succeeds, so the
              -- completed-result path of the source is unreachable
              let result : ResultData :=
                { job_id := job.job_id, service_type := "style_transfer",
                  status := "completed", result_image := some "" }
              (Except.ok result, ps1, upload_result job.job_id result store)

/-- `MultiServiceProcessor.generate_fallback_response` (the `context`
parameter of the source is unused there).  `in` on strings is embedded via
`splitOn`: a non-empty pattern occurs in `s` iff splitting on it yields more
than one part. -/
def generate_fallback_response (question : String) : String :=
  if (question.toLower.splitOn "borobudur").length > 1 then
    "Borobudur adalah candi Buddha terbesar di dunia yang terletak di Magelang, Jawa Tengah. Candi ini dibangun pada abad ke-8 hingga ke-9 oleh Dinasti Syailendra."
  else if (question.toLower.splitOn "monas").length > 1 then
    "Monumen Nasional (Monas) adalah monumen setinggi 132 meter yang terletak di Jakarta Pusat. Monas didirikan untuk mengenang perjuangan kemerdekaan Indonesia."
  else
    "Maaf, saya memerlukan informasi lebih lanjut untuk menjawab pertanyaan Anda tentang budaya Indonesia. Bisa tolong berikan pertanyaan yang lebih spesifik?"

/-- `MultiServiceProcessor.process_rag_chat`.  `ragQuery` returns
`results['documents']`; an Ollama failure is caught *inside* the body and
falls back, it does not reach the outer `except`. -/
def process_rag_chat (o : Oracles) (job : Job) (ps : PState) (store : Store) :
    Except String ResultData × PState × Store :=
  let fail := fun (e : String) (ps1 : PState) =>
    (Except.error e, ps1, upload_result job.job_id (error_result job "rag_chat" e) store)
  match load_rag_system o.chromaInit o.ollamaAvail ps with
  | (Except.error e, ps1) => fail e ps1
  | (Except.ok _, ps1) =>
    match job.question with
    | none => fail "KeyError: question" ps1
    | some question =>
      match o.ragQuery question with
      | Except.error e => fail e ps1
      | Except.ok docs =>
        let context := match docs with
          | [] => ""
          | d0 :: _ => String.intercalate "\n" d0
        match ps1.ollama_client with
        | none => fail "AttributeError: ollama_client" ps1
        | some avail =>
          let answer :=
            if avail then
              match o.ollamaGen ("Context: " ++ context ++ "\n\nQuestion: " ++ question
                  ++ "\n\nAnswer:") with
              | Except.ok a => a
              | Except.error _ => generate_fallback_response question
            else generate_fallback_response question
          let result : ResultData :=
            { job_id := job.job_id, service_type := "rag_chat", status := "completed",
              question := some question, answer := some answer,
              context_used := some (decide (context.length > 0)) }
          (Except.ok result, ps1, upload_result job.job_id result store)

/-- The four chained boolean-mask filters of `process_recommendation`, in
source order (category, city, max price, min rating); an absent preference
key skips its filter. -/
def filteredTourism (preferences : Preferences) (df : List TourismRow) : List TourismRow :=
  let d1 := match preferences.category with
    | some c => df.filter fun r => r.category == c
    | none => df
  let d2 := match preferences.city with
    | some c => d1.filter fun r => r.city == c
    | none => d1
  let d3 := match preferences.max_price with
    | some p => d2.filter fun r => decide (r.price ≤ p)
    | none => d2
  match preferences.min_rating with
  | some m => d3.filter fun r => decide (m ≤ r.rating)
  | none => d3

/-- Descending-rating comparison used to embed `nlargest(limit, 'Rating')`. -/
def ratingDesc (a b : TourismRow) : Bool := decide (b.rating ≤ a.rating)

/-- `filtered_df.nlargest(limit, 'Rating')` with pandas' default
`keep='first'`: the first `limit` rows in descending rating order, ties broken
by original position — a stable descending sort followed by `take`. -/
def nlargestRating (limit : Nat) (df : List TourismRow) : List TourismRow :=
  (df.mergeSort ratingDesc).take limit

/-- The per-row projection to the fixed output schema of the recommendation
handler. -/
def projectRow (r : TourismRow) : RecRecord :=
  { place_id := r.place_Id, place_name := r.place_Name, description := r.description,
    category := r.category, city := r.city, price := r.price, rating := r.rating,
    time_minutes := r.time_Minutes, latitude := r.lat, longitude := r.long }

/-- `MultiServiceProcessor.process_recommendation`. -/
def process_recommendation (o : Oracles) (job : Job) (ps : PState) (store : Store) :
    Except String ResultData × PState × Store :=
  let fail := fun (e : String) (ps1 : PState) =>
    (Except.error e, ps1, upload_result job.job_id (error_result job "recommendation" e) store)
  match load_recommendation_data o.readTourism o.readRating o.readUser ps with
  | (Except.error e, ps1) => fail e ps1
  | (Except.ok _, ps1) =>
    match job.user_id with
    | none => fail "KeyError: user_id" ps1
    | some uid =>
      match job.preferences with
      | none => fail "KeyError: preferences" ps1
      | some preferences =>
        let limit := job.limit.getD 10
        match ps1.tourism_df with
        | none => fail "AttributeError: tourism_df" ps1
        | some df =>
          let recommendation_list :=
            (nlargestRating limit (filteredTourism preferences df)).map projectRow
          let result : ResultData :=
            { job_id := job.job_id, service_type := "recommendation", status := "completed",
              user_id := some uid, preferences_used := some preferences,
              recommendations := some recommendation_list,
              total_found := some recommendation_list.length }
          (Except.ok result, ps1, upload_result job.job_id result store)

/-! ### Multi-queue dispatcher and idle-shutdown loop (`main`) -/

/-- The three service names, i.e. the keys of the `queues` dict in `main`. -/
inductive ServiceName
  | style_transfer
  | rag_chat
  | recommendation
  deriving Repr, DecidableEq

/-- The iteration order of `queues.items()`: Python dicts iterate in insertion
order, so every cycle scans the queues in this fixed order. -/
def serviceOrder : List ServiceName :=
  [ServiceName.style_transfer, ServiceName.rag_chat, ServiceName.recommendation]

/-- The three Azure queues, each a FIFO list of raw message bodies. -/
structure Queues where
  style_transfer_q : List String
  rag_q : List String
  recommendation_q : List String

/-- The queue registered for a service name. -/
def Queues.get (qs : Queues) : ServiceName → List String
  | ServiceName.style_transfer => qs.style_transfer_q
  | ServiceName.rag_chat => qs.rag_q
  | ServiceName.recommendation => qs.recommendation_q

/-- Replace the queue registered for a service name. -/
def Queues.set (qs : Queues) : ServiceName → List String → Queues
  | ServiceName.style_transfer, q => { qs with style_transfer_q := q }
  | ServiceName.rag_chat, q => { qs with rag_q := q }
  | ServiceName.recommendation, q => { qs with recommendation_q := q }

/-- The state of the `while True` loop in `main`. -/
structure LoopState where
  queues : Queues
  pstate : PState
  store : Store
  idle_count : Nat

/-- `max_idle_time = 120  # 2 minutes for cost optimization`. -/
def max_idle_time : Nat := 120

/-- The `if service_name == ...` routing in the message-processing branch. -/
def routeJob (o : Oracles) (sn : ServiceName) (job : Job) (ps : PState) (store : Store) :
    Except String ResultData × PState × Store :=
  match sn with
  | ServiceName.style_transfer => process_style_transfer o job ps store
  | ServiceName.rag_chat => process_rag_chat o job ps store
  | ServiceName.recommendation => process_recommendation o job ps store

/-- The inner per-message `try` of the loop body: `json.loads` the message
content, route to the matching handler; `Except.ok` means the `try` body ran
to completion (so the dispatcher will delete the message), `Except.error`
that it raised (the `except` branch only logs). -/
def handleMessage (o : Oracles) (sn : ServiceName) (content : String) (ps : PState)
    (store : Store) : Except String Unit × PState × Store :=
  match o.parse content with
  | Except.error e => (Except.error e, ps, store)
  | Except.ok job =>
    match routeJob o sn job ps store with
    | (Except.ok _, ps1, store1) => (Except.ok Unit.unit, ps1, store1)
    | (Except.error e, ps1, store1) => (Except.error e, ps1, store1)

/-- One iteration of the `for service_name, queue_client in queues.items()`
body for one queue: `receive_messages(max_messages=1, visibility_timeout=600)`
yields at most the front message.  On receipt `idle_count` is reset to 0
before processing; `delete_message` removes the message exactly when the
inner `try` completed, otherwise the message stays in its queue for
redelivery after the visibility timeout.  Returns the received message, if
any. -/
def pollOne (o : Oracles) (sn : ServiceName) (st : LoopState) : LoopState × Option String :=
  match st.queues.get sn with
  | [] => (st, none)
  | m :: rest =>
    let r := handleMessage o sn m st.pstate st.store
    match r.1 with
    | Except.ok _ =>
        ({ st with queues := st.queues.set sn rest, pstate := r.2.1, store := r.2.2,
                   idle_count := 0 }, some m)
    | Except.error _ =>
        ({ st with pstate := r.2.1, store := r.2.2, idle_count := 0 }, some m)

/-- One full cycle of the `while True` loop: scan the three queues in
`serviceOrder`, then the `if not message_found` idle accounting; the returned
`Bool` is whether the loop `break`s (idle shutdown), and the trace lists the
messages received this cycle, in processing order. -/
def cycle (o : Oracles) (st : LoopState) : LoopState × Bool × List (ServiceName × String) :=
  let p1 := pollOne o ServiceName.style_transfer st
  let p2 := pollOne o ServiceName.rag_chat p1.1
  let p3 := pollOne o ServiceName.recommendation p2.1
  let trace :=
    ([(ServiceName.style_transfer, p1.2), (ServiceName.rag_chat, p2.2),
      (ServiceName.recommendation, p3.2)]).filterMap
      fun pr => pr.2.map fun m => (pr.1, m)
  let message_found := p1.2.isSome || p2.2.isSome || p3.2.isSome
  if message_found then (p3.1, false, trace)
  else
    let idle := p3.1.idle_count + 1
    ({ p3.1 with idle_count := idle }, decide (idle ≥ max_idle_time), trace)

/-- Run the loop for at most `fuel` cycles: `some (n, final)` means the loop
`break`s cleanly during cycle `n` (`n ≤ fuel`), `none` that it is still
running after `fuel` cycles. -/
def runLoop (o : Oracles) : Nat → LoopState → Option (Nat × LoopState)
  | 0, _ => none
  | fuel + 1, st =>
    match cycle o st with
    | (st1, true, _) => some (1, st1)
    | (st1, false, _) =>
      match runLoop o fuel st1 with
      | some (n, fin) => some (n + 1, fin)
      | none => none

/-- How a terminating run of `main()` ended. -/
inductive MainTermination
  | missing_config
  | idle_shutdown
  deriving Repr, DecidableEq

/-- The startup configuration gate of `main`:
`connection_string = os.getenv('AZURE_STORAGE_CONNECTION_STRING')` followed by
`if not connection_string: logger.error(...); return` — `None` and the empty
string are both falsy, and the function returns before the processor or any
queue client is created; otherwise the loop runs and only ever exits through
the idle-shutdown `break`. -/
def main_termination (conn : Option String) : MainTermination :=
  match conn with
  | none => MainTermination.missing_config
  | some s => if s = "" then MainTermination.missing_config else MainTermination.idle_shutdown

/-- The process exit status for each terminating path of `main`: the
missing-configuration path is a plain `return` and the idle-shutdown `break`
falls off the end of `main`; in both cases the `if __name__ == "__main__":
main()` script ends without `sys.exit` and CPython exits with status 0. -/
def exit_code : MainTermination → Nat
  | MainTermination.missing_config => 0
  | MainTermination.idle_shutdown => 0

/-- A concrete oracle bundle for closed witness statements: every external
call succeeds, parsing yields a fixed recommendation job, the dataset is a
small concrete table. -/
def sampleRow1 : TourismRow :=
  { place_Id := 1, place_Name := "Candi Borobudur", description := "Candi Buddha",
    category := "Budaya", city := "Magelang", price := 50000, rating := (46 : Rat) / 10,
    time_Minutes := some 90, lat := (-7 : Rat), long := (110 : Rat) }

/-- A second concrete dataset row (different city/category, lower rating). -/
def sampleRow2 : TourismRow :=
  { place_Id := 2, place_Name := "Monas", description := "Monumen Nasional",
    category := "Budaya", city := "Jakarta", price := 20000, rating := (44 : Rat) / 10,
    time_Minutes := none, lat := (-6 : Rat), long := (106 : Rat) }

/-- A concrete recommendation job used by witnesses. -/
def sampleRecJob : Job :=
  { job_id := "r1", user_id := some "u1",
    preferences := some { category := some "Budaya", min_rating := some ((45 : Rat) / 10) },
    limit := some 2 }

/-- Concrete all-success oracles used by witnesses. -/
def sampleOracles : Oracles :=
  { parse := fun _ => Except.ok sampleRecJob,
    stLoad := Except.ok Unit.unit,
    decodeImage := fun _ => Except.ok ⟨1024, 768⟩,
    chromaInit := Except.ok Unit.unit,
    ollamaAvail := false,
    ragQuery := fun _ => Except.ok [["Borobudur adalah candi."]],
    ollamaGen := fun _ => Except.error "ollama unavailable",
    readTourism := Except.ok [sampleRow2, sampleRow1],
    readRating := Except.ok Unit.unit,
    readUser := Except.ok Unit.unit }

/-- The `service_type` string each handler stamps into its results. -/
def serviceTypeName : ServiceName → String
  | ServiceName.style_transfer => "style_transfer"
  | ServiceName.rag_chat => "rag_chat"
  | ServiceName.recommendation => "recommendation"

/-- Three queues that never yield a message. -/
def emptyQueues : Queues := ⟨[], [], []⟩

/-- Oracles identical to `sampleOracles` except that the first CSV read (the
opaque business collaborator of the recommendation handler) raises. -/
def failingOracles : Oracles :=
  { sampleOracles with readTourism := Except.error "read_csv failed" }

/-- Process the same recommendation job twice in a row (simulated
redelivery), threading processor state and store; returns both invocation
results. -/
def processRecommendationTwice (o : Oracles) (job : Job) (ps : PState) (store : Store) :
    (Except String ResultData × PState × Store) × (Except String ResultData × PState × Store) :=
  let r1 := process_recommendation o job ps store
  (r1, process_recommendation o job r1.2.1 r1.2.2)

/-- Concrete style-transfer oracles for closed witness statements: decoding
yields fixed large images and generation succeeds. -/
def sampleSTOracles : STOracles :=
  { construct := Except.ok 7,
    decode := fun s => if s = "CONTENT" then Except.ok ⟨1024, 768⟩ else Except.ok ⟨640, 2000⟩,
    ipHasGenerate := true,
    genResult := fun _ => Except.ok ⟨512, 512⟩ }

/-! ## Store lemmas -/

theorem storeGet_storePut_same (store : Store) (k : String) (v : ResultData) :
    storeGet (storePut store k v) k = some v := by
  simp [storeGet, storePut, List.find?]

theorem storeGet_storePut_ne (store : Store) (k k' : String) (v : ResultData) (h : k' ≠ k) :
    storeGet (storePut store k v) k' = storeGet store k' := by
  unfold storeGet storePut
  rw [show List.find? (fun kv => decide (kv.1 = k')) ((k, v) :: (store.filter fun kv => kv.1 ≠ k)) =
      List.find? (fun kv => decide (kv.1 = k')) (store.filter fun kv => kv.1 ≠ k) from by
    simp [List.find?_cons, Ne.symm h]]
  rw [List.find?_filter]
  have hfun : (fun a : String × ResultData => decide (decide (a.1 ≠ k) = true ∧ decide (a.1 = k') = true))
      = fun kv : String × ResultData => decide (kv.1 = k') := by
    funext a
    by_cases ha : a.1 = k <;> simp [ha, Ne.symm h]
  rw [hfun]

theorem storeCount_storePut (store : Store) (k : String) (v : ResultData) :
    storeCount (storePut store k v) k = 1 := by
  unfold storeCount storePut
  rw [List.countP_cons_of_pos]
  · have h0 : (store.filter fun kv => kv.1 ≠ k).countP (fun kv => decide (kv.1 = k)) = 0 := by
      rw [List.countP_eq_zero]
      intro kv hkv
      have := (List.mem_filter.mp hkv).2
      simp_all
    simp only [h0]
  · simp

theorem upload_result_eq_storePut (job_id : String) (rd : ResultData) (store : Store) :
    upload_result job_id rd store = storePut store (resultKey job_id) rd := rfl

/-! ## Handler characterization lemmas -/

theorem process_recommendation_error_upload (o : Oracles) (job : Job) (ps : PState)
    (store : Store) (e : String)
    (h : (process_recommendation o job ps store).1 = Except.error e) :
    (process_recommendation o job ps store).2.2 =
      upload_result job.job_id (error_result job "recommendation" e) store := by
  unfold process_recommendation at h ⊢
  repeat' split at h
  all_goals simp_all

theorem process_style_transfer_error_upload (o : Oracles) (job : Job) (ps : PState)
    (store : Store) (e : String)
    (h : (process_style_transfer o job ps store).1 = Except.error e) :
    (process_style_transfer o job ps store).2.2 =
      upload_result job.job_id (error_result job "style_transfer" e) store := by
  unfold process_style_transfer at h ⊢
  repeat' split at h
  all_goals simp_all

theorem process_rag_chat_error_upload (o : Oracles) (job : Job) (ps : PState)
    (store : Store) (e : String)
    (h : (process_rag_chat o job ps store).1 = Except.error e) :
    (process_rag_chat o job ps store).2.2 =
      upload_result job.job_id (error_result job "rag_chat" e) store := by
  unfold process_rag_chat at h ⊢
  repeat' split at h
  all_goals simp_all

theorem process_recommendation_uploads (o : Oracles) (job : Job) (ps : PState) (store : Store) :
    ∃ rd, (process_recommendation o job ps store).2.2 = upload_result job.job_id rd store ∧
      rd.job_id = job.job_id ∧ rd.service_type = "recommendation" := by
  unfold process_recommendation
  repeat' split
  all_goals exact ⟨_, rfl, rfl, rfl⟩

theorem process_style_transfer_never_ok (o : Oracles) (job : Job) (ps : PState) (store : Store) :
    ∃ e, (process_style_transfer o job ps store).1 = Except.error e := by
  unfold process_style_transfer
  repeat' split
  all_goals first
    | exact ⟨_, rfl⟩
    | simp_all [bindCall, style_trans_params]

/-! ## Loader lemmas and claims C3, C4 -/

theorem loaderCalls_loaded (outs : List (Except String Unit)) (ps : PState)
    (h : ps.style_transfer_loaded = true) :
    loaderCalls outs ps = (List.replicate outs.length (Except.ok Unit.unit), ps, 0) := by
  induction outs with
  | nil => rfl
  | cons o rest ih => simp [loaderCalls, load_style_transfer_model, h, ih, List.replicate]

/-- C3: a service loader whose construction raises does not cache the failed
state: the error propagates to the caller, the loaded flag stays unset, and
the next call re-attempts construction from scratch; in a failure-then-success
scenario the second call succeeds and marks the service loaded.  Shown for
`load_style_transfer_model` and, failing at the first or second CSV read, for
`load_recommendation_data`. -/
theorem loader_failure_not_cached_retry_succeeds (e : String) (ps : PState)
    (h1 : ps.style_transfer_loaded = false) (h2 : ps.recommendation_data_loaded = false)
    (r2 r3 : Except String Unit) (df : List TourismRow) :
    (load_style_transfer_model (Except.error e) ps).1 = Except.error e ∧
    ((load_style_transfer_model (Except.error e) ps).2).style_transfer_loaded = false ∧
    (load_style_transfer_model (Except.ok Unit.unit)
        (load_style_transfer_model (Except.error e) ps).2).1 = Except.ok Unit.unit ∧
    ((load_style_transfer_model (Except.ok Unit.unit)
        (load_style_transfer_model (Except.error e) ps).2).2).style_transfer_loaded = true ∧
    (load_recommendation_data (Except.error e) r2 r3 ps).1 = Except.error e ∧
    ((load_recommendation_data (Except.error e) r2 r3 ps).2).recommendation_data_loaded
        = false ∧
    ((load_recommendation_data (Except.ok df) (Except.error e) r3
        ps).2).recommendation_data_loaded = false ∧
    (load_recommendation_data (Except.ok df) (Except.ok Unit.unit) (Except.ok Unit.unit)
        (load_recommendation_data (Except.error e) r2 r3 ps).2).1 = Except.ok Unit.unit ∧
    ((load_recommendation_data (Except.ok df) (Except.ok Unit.unit) (Except.ok Unit.unit)
        (load_recommendation_data (Except.error e) r2 r3 ps).2).2).recommendation_data_loaded
        = true := by
  simp [load_style_transfer_model, load_recommendation_data, h1, h2]

theorem loader_failure_not_cached_retry_succeeds_witness :
    (load_style_transfer_model (Except.ok Unit.unit)
        (load_style_transfer_model (Except.error "construction failed") {}).2).2.style_transfer_loaded
      = true :=
  (loader_failure_not_cached_retry_succeeds "construction failed" {} rfl rfl
      (Except.ok Unit.unit) (Except.ok Unit.unit) []).2.2.2.1

/-- C4: the service loader is idempotent: starting unloaded, a call sequence
whose first call constructs successfully enters construction exactly once —
the first call performs it, the flag is set, every call returns normally with
the cached resource, and no later call re-enters construction; the
module-level cache in `model_load` likewise returns the cached handle without
reconstructing. -/
theorem loader_idempotent_single_construction (outs : List (Except String Unit)) (ps : PState)
    (h : ps.style_transfer_loaded = false) :
    (loaderCalls (Except.ok Unit.unit :: outs) ps).2.2 = 1 ∧
    ((loaderCalls (Except.ok Unit.unit :: outs) ps).2.1).style_transfer_loaded = true ∧
    (∀ r ∈ (loaderCalls (Except.ok Unit.unit :: outs) ps).1, r = Except.ok Unit.unit) ∧
    (∀ c m, model_load c (some m) = (Except.ok m, some m, false)) := by
  have hL : loaderCalls (Except.ok Unit.unit :: outs) ps =
      (Except.ok Unit.unit :: List.replicate outs.length (Except.ok Unit.unit),
       { ps with style_transfer_loaded := true }, 1) := by
    simp [loaderCalls, load_style_transfer_model, h,
      loaderCalls_loaded outs { ps with style_transfer_loaded := true } rfl]
  refine ⟨by rw [hL], by rw [hL], ?_, fun c m => rfl⟩
  rw [hL]
  intro r hr
  rcases List.mem_cons.mp hr with h1 | h1
  · exact h1
  · exact List.eq_of_mem_replicate h1

theorem loader_idempotent_single_construction_witness :
    (loaderCalls [Except.ok Unit.unit, Except.error "again", Except.ok Unit.unit] {}).2.2 = 1 :=
  (loader_idempotent_single_construction [Except.error "again", Except.ok Unit.unit] {} rfl).1

/-! ## Claim C7: redelivery idempotence of result persistence -/

/-- C7: processing the same job twice (simulated redelivery) writes a result
dictionary carrying the job id and `"recommendation"` service type both
times, each write is an overwriting put at `results/<job_id>.json`, and the
store ends with exactly one object at that key, holding the second write
(last write wins); no other key is affected. -/
theorem same_job_twice_last_write_wins (o : Oracles) (job : Job) (ps : PState) (store : Store) :
    ∃ rd1 rd2,
      (processRecommendationTwice o job ps store).1.2.2 = upload_result job.job_id rd1 store ∧
      (processRecommendationTwice o job ps store).2.2.2 =
        upload_result job.job_id rd2 (upload_result job.job_id rd1 store) ∧
      rd1.job_id = job.job_id ∧ rd2.job_id = job.job_id ∧
      rd1.service_type = "recommendation" ∧ rd2.service_type = "recommendation" ∧
      storeGet (processRecommendationTwice o job ps store).2.2.2 (resultKey job.job_id)
        = some rd2 ∧
      storeCount (processRecommendationTwice o job ps store).2.2.2 (resultKey job.job_id)
        = 1 ∧
      (∀ k, k ≠ resultKey job.job_id →
        storeGet (processRecommendationTwice o job ps store).2.2.2 k = storeGet store k) := by
  obtain ⟨rd1, h1, hid1, hty1⟩ := process_recommendation_uploads o job ps store
  obtain ⟨rd2, h2, hid2, hty2⟩ := process_recommendation_uploads o job
      (process_recommendation o job ps store).2.1 (process_recommendation o job ps store).2.2
  have hfin : (processRecommendationTwice o job ps store).2.2.2 =
      upload_result job.job_id rd2 (upload_result job.job_id rd1 store) := by
    show (process_recommendation o job (process_recommendation o job ps store).2.1
        (process_recommendation o job ps store).2.2).2.2 = _
    rw [h2, h1]
  refine ⟨rd1, rd2, h1, hfin, hid1, hid2, hty1, hty2, ?_, ?_, ?_⟩
  · rw [hfin, upload_result_eq_storePut]
    exact storeGet_storePut_same _ _ _
  · rw [hfin, upload_result_eq_storePut]
    exact storeCount_storePut _ _ _
  · intro k hk
    rw [hfin, upload_result_eq_storePut, upload_result_eq_storePut,
      storeGet_storePut_ne _ _ _ _ hk, storeGet_storePut_ne _ _ _ _ hk]

theorem same_job_twice_last_write_wins_witness :
    storeCount (processRecommendationTwice sampleOracles sampleRecJob {} []).2.2.2
      (resultKey "r1") = 1 := by
  obtain ⟨rd1, rd2, -, -, -, -, -, -, -, hcount, -⟩ :=
    same_job_twice_last_write_wins sampleOracles sampleRecJob {} []
  exact hcount

/-! ## Claim C9: startup configuration and exit codes -/

/-- C9 counterexample: with the storage connection string absent, `main` logs
an error and returns; the script then ends normally, so the process exit
status is 0 — not nonzero as the claim states. -/
theorem missing_config_exit_code_zero :
    exit_code (main_termination none) = 0 := rfl

/-- C9 (amended): at startup, if the storage connection configuration is
missing (unset or empty), the process returns before creating the processor
or any queue client and exits with status 0 — the same status as a clean
idle shutdown; the claimed nonzero exit does not occur anywhere in `main`. -/
theorem main_exit_codes :
    main_termination none = MainTermination.missing_config ∧
    main_termination (some "") = MainTermination.missing_config ∧
    exit_code MainTermination.missing_config = 0 ∧
    exit_code MainTermination.idle_shutdown = 0 := by
  refine ⟨rfl, ?_, rfl, rfl⟩
  simp [main_termination]

/-! ## Dispatcher lemmas -/

theorem Queues_get_set_ne (qs : Queues) (sn sn' : ServiceName) (q : List String) (h : sn ≠ sn') :
    (qs.set sn q).get sn' = qs.get sn' := by
  cases sn <;> cases sn' <;> simp_all [Queues.get, Queues.set]

theorem Queues_get_set_same (qs : Queues) (sn : ServiceName) (q : List String) :
    (qs.set sn q).get sn = q := by
  cases sn <;> simp [Queues.get, Queues.set]

theorem pollOne_empty (o : Oracles) (sn : ServiceName) (st : LoopState)
    (h : st.queues.get sn = []) : pollOne o sn st = (st, none) := by
  unfold pollOne
  rw [h]

theorem pollOne_msg (o : Oracles) (sn : ServiceName) (st : LoopState) :
    (pollOne o sn st).2 = (st.queues.get sn).head? := by
  unfold pollOne
  rcases hq : st.queues.get sn with _ | ⟨m, rest⟩
  · rfl
  · rcases he : (handleMessage o sn m st.pstate st.store).1 with e | u <;> simp_all

theorem pollOne_cons (o : Oracles) (sn : ServiceName) (st : LoopState) (m : String)
    (rest : List String) (h : st.queues.get sn = m :: rest) :
    (pollOne o sn st).2 = some m ∧
    (pollOne o sn st).1.idle_count = 0 ∧
    (pollOne o sn st).1.pstate = (handleMessage o sn m st.pstate st.store).2.1 ∧
    (pollOne o sn st).1.store = (handleMessage o sn m st.pstate st.store).2.2 ∧
    ((pollOne o sn st).1.queues.get sn = rest ↔
       (handleMessage o sn m st.pstate st.store).1 = Except.ok Unit.unit) ∧
    ((pollOne o sn st).1.queues.get sn = m :: rest ↔
       ¬ (handleMessage o sn m st.pstate st.store).1 = Except.ok Unit.unit) := by
  unfold pollOne
  rw [h]
  rcases he : (handleMessage o sn m st.pstate st.store).1 with e | u
  · simp_all [List.cons_ne_self]
  · simp_all [Queues_get_set_same]

theorem pollOne_other (o : Oracles) (sn sn' : ServiceName) (st : LoopState) (h : sn ≠ sn') :
    (pollOne o sn st).1.queues.get sn' = st.queues.get sn' := by
  unfold pollOne
  rcases hq : st.queues.get sn with _ | ⟨m, rest⟩
  · rfl
  · rcases he : (handleMessage o sn m st.pstate st.store).1 with e | u
    all_goals simp_all [Queues_get_set_ne]

theorem pollOne_none_id (o : Oracles) (sn : ServiceName) (st : LoopState)
    (h : (pollOne o sn st).2 = none) : (pollOne o sn st).1 = st := by
  unfold pollOne at h ⊢
  rcases hq : st.queues.get sn with _ | ⟨m, rest⟩
  · rfl
  · rw [hq] at h
    rcases he : (handleMessage o sn m st.pstate st.store).1 with e | u <;> simp_all

theorem pollOne_some_idle (o : Oracles) (sn : ServiceName) (st : LoopState) (m : String)
    (h : (pollOne o sn st).2 = some m) : (pollOne o sn st).1.idle_count = 0 := by
  unfold pollOne at h ⊢
  rcases hq : st.queues.get sn with _ | ⟨m0, rest⟩
  · simp_all
  · rw [hq] at h
    rcases he : (handleMessage o sn m0 st.pstate st.store).1 with e | u <;> simp_all

theorem pollOne_tail_or_same (o : Oracles) (sn : ServiceName) (st : LoopState) :
    (pollOne o sn st).1.queues.get sn = st.queues.get sn ∨
    (pollOne o sn st).1.queues.get sn = (st.queues.get sn).tail := by
  unfold pollOne
  rcases hq : st.queues.get sn with _ | ⟨m, rest⟩
  · left; rw [hq]
  · rcases he : (handleMessage o sn m st.pstate st.store).1 with e | u
    · left; simp_all
    · right; simp_all [Queues_get_set_same]

theorem cycle_queues_eq (o : Oracles) (st : LoopState) :
    (cycle o st).1.queues =
      (pollOne o ServiceName.recommendation
        (pollOne o ServiceName.rag_chat
          (pollOne o ServiceName.style_transfer st).1).1).1.queues := by
  simp only [cycle]
  split <;> rfl

theorem cycle_trace (o : Oracles) (st : LoopState) :
    (cycle o st).2.2 =
      ([(ServiceName.style_transfer, (st.queues.get ServiceName.style_transfer).head?),
        (ServiceName.rag_chat, (st.queues.get ServiceName.rag_chat).head?),
        (ServiceName.recommendation, (st.queues.get ServiceName.recommendation).head?)]).filterMap
        (fun pr => pr.2.map fun m => (pr.1, m)) := by
  have h1 : (pollOne o ServiceName.style_transfer st).2
      = (st.queues.get ServiceName.style_transfer).head? := pollOne_msg o _ st
  have h2 : (pollOne o ServiceName.rag_chat (pollOne o ServiceName.style_transfer st).1).2
      = (st.queues.get ServiceName.rag_chat).head? := by
    rw [pollOne_msg, pollOne_other o _ _ st (by decide)]
  have h3 : (pollOne o ServiceName.recommendation
      (pollOne o ServiceName.rag_chat (pollOne o ServiceName.style_transfer st).1).1).2
      = (st.queues.get ServiceName.recommendation).head? := by
    rw [pollOne_msg, pollOne_other o _ _ _ (by decide), pollOne_other o _ _ st (by decide)]
  simp only [cycle]
  split <;> rw [h1, h2, h3]

theorem cycle_found_idle_zero (o : Oracles) (st : LoopState) (h : (cycle o st).2.2 ≠ []) :
    (cycle o st).1.idle_count = 0 := by
  rw [cycle_trace] at h
  simp only [cycle]
  rcases h3 : (pollOne o ServiceName.recommendation
      (pollOne o ServiceName.rag_chat (pollOne o ServiceName.style_transfer st).1).1).2
    with _ | m3
  case some =>
    split
    · exact pollOne_some_idle o _ _ m3 h3
    · simp_all
  case none =>
    have e3 := pollOne_none_id o _ _ h3
    rcases h2 : (pollOne o ServiceName.rag_chat (pollOne o ServiceName.style_transfer st).1).2
      with _ | m2
    case some =>
      split
      · rw [e3]; exact pollOne_some_idle o _ _ m2 h2
      · simp_all
    case none =>
      have e2 := pollOne_none_id o _ _ h2
      rcases h1 : (pollOne o ServiceName.style_transfer st).2 with _ | m1
      case none =>
        exfalso
        apply h
        rw [← pollOne_msg o ServiceName.style_transfer st, h1]
        rw [show (st.queues.get ServiceName.rag_chat).head? = none from by
          rw [← pollOne_other o ServiceName.style_transfer ServiceName.rag_chat st (by decide),
            ← pollOne_msg o ServiceName.rag_chat _, h2]]
        rw [show (st.queues.get ServiceName.recommendation).head? = none from by
          rw [← pollOne_other o ServiceName.style_transfer ServiceName.recommendation st (by decide),
            ← pollOne_other o ServiceName.rag_chat ServiceName.recommendation _ (by decide),
            ← pollOne_msg o ServiceName.recommendation _, h3]]
        rfl
      case some =>
        split
        · rw [e3, e2]; exact pollOne_some_idle o _ _ m1 h1
        · simp_all

/-! ## Idle-loop lemmas -/

theorem cycle_empty (o : Oracles) (ps : PState) (store : Store) (i : Nat) :
    cycle o ⟨emptyQueues, ps, store, i⟩ =
      (⟨emptyQueues, ps, store, i + 1⟩, decide (i + 1 ≥ max_idle_time), []) := rfl

theorem runLoop_empty_spec (o : Oracles) (ps : PState) (store : Store) :
    ∀ k, 1 ≤ k → k ≤ max_idle_time → ∀ fuel,
      (k ≤ fuel → runLoop o fuel ⟨emptyQueues, ps, store, max_idle_time - k⟩ =
        some (k, ⟨emptyQueues, ps, store, max_idle_time⟩)) ∧
      (fuel < k → runLoop o fuel ⟨emptyQueues, ps, store, max_idle_time - k⟩ = none) := by
  intro k
  induction k with
  | zero => intro h1; omega
  | succ n ih =>
    intro h1 h2 fuel
    constructor
    · intro hf
      cases fuel with
      | zero => omega
      | succ f =>
        have he : max_idle_time - (n + 1) + 1 = max_idle_time - n := by omega
        by_cases hn : n = 0
        · subst hn
          simp only [runLoop, cycle_empty, he, Nat.sub_zero]
          rw [show (decide (max_idle_time ≥ max_idle_time)) = true from by simp]
        · have hd : (decide (max_idle_time - n ≥ max_idle_time)) = false := by
            have : 0 < n := Nat.pos_of_ne_zero hn
            simp only [decide_eq_false_iff_not, ge_iff_le, Nat.not_le]
            omega
          have ihn := (ih (by omega) (by omega) f).1 (by omega)
          simp only [runLoop, cycle_empty, he, hd, ihn]
    · intro hf
      cases fuel with
      | zero => rfl
      | succ f =>
        have hn : ¬ n = 0 := by omega
        have he : max_idle_time - (n + 1) + 1 = max_idle_time - n := by omega
        have hd : (decide (max_idle_time - n ≥ max_idle_time)) = false := by
          have : 0 < n := Nat.pos_of_ne_zero hn
          simp only [decide_eq_false_iff_not, ge_iff_le, Nat.not_le]
          omega
        have ihn := (ih (by omega) (by omega) f).2 (by omega)
        simp only [runLoop, cycle_empty, he, hd, ihn]

/-! ## Claim C1 (corrected): handler failures are persisted, then re-raised -/

/-- C1 counterexample: a recommendation job whose business collaborator (the
CSV read inside the loader) fails.  The handler exception escapes the handler
boundary (`process_recommendation` re-raises after persisting), and the
dispatcher leaves the message in the queue instead of deleting it — refuting
both the "never propagates" and the "message is then deleted" parts of the
claim. -/
theorem handler_error_escapes_dispatch_keeps_message :
    (process_recommendation failingOracles sampleRecJob {} []).1 =
      Except.error "read_csv failed" ∧
    (pollOne failingOracles ServiceName.recommendation
        ⟨⟨[], [], ["m"]⟩, {}, [], 0⟩).1.queues.get ServiceName.recommendation = ["m"] :=
  ⟨rfl, rfl⟩

/-- C1 (amended): a handler invocation in which the business logic fails
converts the failure into a `Result{status := "error"}` with the error
message and persists it at `results/<job_id>.json` — but then re-raises the
exception past the handler boundary, so the dispatcher does not delete the
message and the job is retried after the visibility timeout rather than being
considered done. -/
theorem handler_failure_persists_error_and_reraises (o : Oracles) (job : Job) (ps : PState)
    (store : Store) (e : String) :
    (∀ sn, (routeJob o sn job ps store).1 = Except.error e →
      storeGet (routeJob o sn job ps store).2.2 (resultKey job.job_id) =
        some (error_result job (serviceTypeName sn) e)) ∧
    (∀ sn (st : LoopState) m rest, st.queues.get sn = m :: rest →
      (handleMessage o sn m st.pstate st.store).1 = Except.error e →
      (pollOne o sn st).1.queues.get sn = m :: rest) := by
  constructor
  · intro sn
    cases sn with
    | style_transfer =>
      intro hsn
      show storeGet (process_style_transfer o job ps store).2.2 _ = _
      rw [process_style_transfer_error_upload o job ps store e hsn, upload_result_eq_storePut]
      exact storeGet_storePut_same _ _ _
    | rag_chat =>
      intro hsn
      show storeGet (process_rag_chat o job ps store).2.2 _ = _
      rw [process_rag_chat_error_upload o job ps store e hsn, upload_result_eq_storePut]
      exact storeGet_storePut_same _ _ _
    | recommendation =>
      intro hsn
      show storeGet (process_recommendation o job ps store).2.2 _ = _
      rw [process_recommendation_error_upload o job ps store e hsn, upload_result_eq_storePut]
      exact storeGet_storePut_same _ _ _
  · intro sn st m rest hq hh
    refine ((pollOne_cons o sn st m rest hq).2.2.2.2.2).mpr ?_
    rw [hh]
    simp

theorem handler_failure_persists_error_and_reraises_witness :
    storeGet (routeJob failingOracles ServiceName.recommendation sampleRecJob {} []).2.2
        (resultKey "r1") =
      some (error_result sampleRecJob "recommendation" "read_csv failed") :=
  (handler_failure_persists_error_and_reraises failingOracles sampleRecJob {} []
      "read_csv failed").1 ServiceName.recommendation rfl

/-! ## Claim C2: dispatcher scan order and delete-iff-success -/

/-- C2: every polling cycle scans the registered queues in the fixed
dictionary order (style transfer, RAG chat, recommendation) and receives at
most the front message of each queue — the cycle trace is exactly the heads
of the three queues in that order; each queue loses at most its front
message per cycle; and the front message is deleted exactly when the inner
`try` (deserialize + matching handler) completes without raising, while a
raising invocation leaves the message in place for redelivery. -/
theorem dispatcher_cycle_order_and_delete_iff (o : Oracles) (st : LoopState) :
    ((cycle o st).2.2 =
      ([(ServiceName.style_transfer, (st.queues.get ServiceName.style_transfer).head?),
        (ServiceName.rag_chat, (st.queues.get ServiceName.rag_chat).head?),
        (ServiceName.recommendation, (st.queues.get ServiceName.recommendation).head?)]).filterMap
        (fun pr => pr.2.map fun m => (pr.1, m))) ∧
    (∀ sn, (cycle o st).1.queues.get sn = st.queues.get sn ∨
           (cycle o st).1.queues.get sn = (st.queues.get sn).tail) ∧
    (∀ sn m rest, st.queues.get sn = m :: rest →
      ((pollOne o sn st).1.queues.get sn = rest ↔
        (handleMessage o sn m st.pstate st.store).1 = Except.ok Unit.unit) ∧
      ((pollOne o sn st).1.queues.get sn = m :: rest ↔
        ¬ (handleMessage o sn m st.pstate st.store).1 = Except.ok Unit.unit)) ∧
    (∀ sn, st.queues.get sn = [] → pollOne o sn st = (st, none)) := by
  refine ⟨cycle_trace o st, ?_, ?_, fun sn h => pollOne_empty o sn st h⟩
  · intro sn
    rw [cycle_queues_eq]
    cases sn with
    | style_transfer =>
      rw [pollOne_other o _ _ _ (by decide), pollOne_other o _ _ _ (by decide)]
      exact pollOne_tail_or_same o _ st
    | rag_chat =>
      rw [pollOne_other o _ _ _ (by decide)]
      rcases pollOne_tail_or_same o ServiceName.rag_chat
          (pollOne o ServiceName.style_transfer st).1 with h | h <;>
        rw [h, pollOne_other o _ _ st (by decide)]
      · exact Or.inl rfl
      · exact Or.inr rfl
    | recommendation =>
      rcases pollOne_tail_or_same o ServiceName.recommendation
          (pollOne o ServiceName.rag_chat (pollOne o ServiceName.style_transfer st).1).1
        with h | h <;>
        rw [h, pollOne_other o _ _ _ (by decide), pollOne_other o _ _ st (by decide)]
      · exact Or.inl rfl
      · exact Or.inr rfl
  · intro sn m rest hq
    exact ⟨(pollOne_cons o sn st m rest hq).2.2.2.2.1,
           (pollOne_cons o sn st m rest hq).2.2.2.2.2⟩

theorem dispatcher_cycle_order_and_delete_iff_witness :
    (pollOne sampleOracles ServiceName.recommendation
        ⟨⟨[], [], ["m"]⟩, {}, [], 3⟩).1.queues.get ServiceName.recommendation = [] :=
  ((dispatcher_cycle_order_and_delete_iff sampleOracles
      ⟨⟨[], [], ["m"]⟩, {}, [], 3⟩).2.2.1 ServiceName.recommendation "m" [] rfl).1.mpr rfl

/-! ## Claim C5: idle shutdown after exactly the configured threshold -/

/-- C5: the supervisor counts consecutive cycles in which no queue yielded a
message: any cycle that received a message ends with the counter reset to
zero, and with queues that never yield messages the loop breaks cleanly
during cycle number `max_idle_time` (= 120) exactly — any fuel below 120
leaves it still running, any fuel of at least 120 stops it at 120. -/
theorem idle_shutdown_exact_threshold (o : Oracles) (ps : PState) (store : Store) :
    (∀ st : LoopState, (cycle o st).2.2 ≠ [] → (cycle o st).1.idle_count = 0) ∧
    (∀ fuel, max_idle_time ≤ fuel →
      runLoop o fuel ⟨emptyQueues, ps, store, 0⟩ =
        some (max_idle_time, ⟨emptyQueues, ps, store, max_idle_time⟩)) ∧
    (∀ fuel, fuel < max_idle_time →
      runLoop o fuel ⟨emptyQueues, ps, store, 0⟩ = none) := by
  refine ⟨fun st h => cycle_found_idle_zero o st h, fun fuel hf => ?_, fun fuel hf => ?_⟩
  · have h := (runLoop_empty_spec o ps store max_idle_time (by simp [max_idle_time])
        le_rfl fuel).1 hf
    rw [Nat.sub_self] at h
    exact h
  · have h := (runLoop_empty_spec o ps store max_idle_time (by simp [max_idle_time])
        le_rfl fuel).2 hf
    rw [Nat.sub_self] at h
    exact h

theorem idle_shutdown_exact_threshold_witness :
    runLoop sampleOracles 120 ⟨emptyQueues, {}, [], 0⟩ =
      some (120, ⟨emptyQueues, {}, [], 120⟩) :=
  (idle_shutdown_exact_threshold sampleOracles {} []).2.1 120 (Nat.le_refl 120)

/-! ## Claim C10: the broken `strength` keyword call -/

/-- C10: `process_style_transfer` invokes `style_trans` with two positional
arguments and the keyword `strength`, but `style_trans` declares five
parameters and no `strength`; CPython argument binding therefore raises
`TypeError` on every invocation, so the handler always takes its `except`
branch: an error result for the job is persisted and the exception re-raised,
and the dispatcher consequently never deletes a style-transfer message. -/
theorem style_transfer_call_binding_always_raises (o : Oracles) (job : Job) (ps : PState)
    (store : Store) :
    bindCall style_trans_params 2 ["strength"] =
      Except.error "TypeError: unexpected keyword argument" ∧
    (∃ e, (process_style_transfer o job ps store).1 = Except.error e ∧
      storeGet (process_style_transfer o job ps store).2.2 (resultKey job.job_id) =
        some (error_result job "style_transfer" e)) ∧
    (∀ st : LoopState, ∀ m rest, st.queues.get ServiceName.style_transfer = m :: rest →
      (pollOne o ServiceName.style_transfer st).1.queues.get ServiceName.style_transfer
        = m :: rest) := by
  refine ⟨rfl, ?_, ?_⟩
  · obtain ⟨e, he⟩ := process_style_transfer_never_ok o job ps store
    refine ⟨e, he, ?_⟩
    rw [process_style_transfer_error_upload o job ps store e he, upload_result_eq_storePut]
    exact storeGet_storePut_same _ _ _
  · intro st m rest hq
    refine ((pollOne_cons o _ st m rest hq).2.2.2.2.2).mpr ?_
    unfold handleMessage
    rcases hp : o.parse m with e | j
    · simp
    · obtain ⟨e2, he2⟩ := process_style_transfer_never_ok o j st.pstate st.store
      have he2r : (routeJob o ServiceName.style_transfer j st.pstate st.store).1 =
          Except.error e2 := he2
      show ¬ (match routeJob o ServiceName.style_transfer j st.pstate st.store with
          | (Except.ok _, ps1, store1) => ((Except.ok Unit.unit : Except String Unit), ps1, store1)
          | (Except.error e, ps1, store1) => (Except.error e, ps1, store1)).1 = Except.ok Unit.unit
      rcases hR : routeJob o ServiceName.style_transfer j st.pstate st.store with ⟨r1, ps1, s1⟩
      rw [hR] at he2r
      simp only at he2r
      rw [he2r]
      simp

theorem style_transfer_call_binding_always_raises_witness :
    (pollOne sampleOracles ServiceName.style_transfer
        ⟨⟨["m"], [], []⟩, {}, [], 0⟩).1.queues.get ServiceName.style_transfer = ["m"] :=
  (style_transfer_call_binding_always_raises sampleOracles sampleRecJob {} []).2.2
    ⟨⟨["m"], [], []⟩, {}, [], 0⟩ "m" [] rfl

/-! ## Recommendation filter lemmas and claim C6 -/

theorem mem_filteredTourism (prefs : Preferences) (df : List TourismRow) (r : TourismRow)
    (h : r ∈ filteredTourism prefs df) :
    r ∈ df ∧
    (∀ c, prefs.category = some c → r.category = c) ∧
    (∀ c, prefs.city = some c → r.city = c) ∧
    (∀ p, prefs.max_price = some p → r.price ≤ p) ∧
    (∀ q, prefs.min_rating = some q → q ≤ r.rating) := by
  unfold filteredTourism at h
  rcases hc : prefs.category with _ | c <;> rcases hct : prefs.city with _ | ct <;>
    rcases hp : prefs.max_price with _ | p <;> rcases hm : prefs.min_rating with _ | q <;>
      simp_all [List.mem_filter]

theorem ratingDesc_trans :
    ∀ a b c : TourismRow, ratingDesc a b → ratingDesc b c → ratingDesc a c := by
  intro a b c hab hbc
  simp only [ratingDesc, decide_eq_true_eq] at *
  exact le_trans hbc hab

theorem ratingDesc_total : ∀ a b : TourismRow, ratingDesc a b || ratingDesc b a := by
  intro a b
  simp only [ratingDesc, Bool.or_eq_true, decide_eq_true_eq]
  exact le_total b.rating a.rating

theorem nlargestRating_mem (limit : Nat) (df : List TourismRow) (r : TourismRow)
    (h : r ∈ nlargestRating limit df) : r ∈ df := by
  unfold nlargestRating at h
  exact List.mem_mergeSort.mp (List.mem_of_mem_take h)

theorem nlargestRating_length (limit : Nat) (df : List TourismRow) :
    (nlargestRating limit df).length ≤ limit := by
  unfold nlargestRating
  exact List.length_take_le _ _

theorem nlargestRating_sorted (limit : Nat) (df : List TourismRow) :
    (nlargestRating limit df).Pairwise fun a b => b.rating ≤ a.rating := by
  unfold nlargestRating
  have hs := List.sorted_mergeSort ratingDesc_trans ratingDesc_total df
  have ht := List.Pairwise.sublist (List.take_sublist limit _) hs
  exact ht.imp fun hb => by simpa [ratingDesc] using hb

theorem nlargestRating_top (limit : Nat) (df : List TourismRow) (x y : TourismRow)
    (hx : x ∈ nlargestRating limit df) (hy : y ∈ df) (hyn : y ∉ nlargestRating limit df) :
    y.rating ≤ x.rating := by
  have hy2 : y ∈ (df.mergeSort ratingDesc).take limit ++ (df.mergeSort ratingDesc).drop limit := by
    rw [List.take_append_drop]
    exact List.mem_mergeSort.mpr hy
  have hyd : y ∈ (df.mergeSort ratingDesc).drop limit := by
    rcases List.mem_append.mp hy2 with h | h
    · exact absurd h hyn
    · exact h
  have hs := List.sorted_mergeSort ratingDesc_trans ratingDesc_total df
  rw [← List.take_append_drop limit (df.mergeSort ratingDesc)] at hs
  have hcross := (List.pairwise_append.mp hs).2.2 x hx y hyd
  simpa [ratingDesc] using hcross

theorem load_recommendation_data_ok (r1 : Except String (List TourismRow))
    (r2 r3 : Except String Unit) (ps : PState) (res : Unit) (ps1 : PState)
    (h : load_recommendation_data r1 r2 r3 ps = (Except.ok res, ps1)) :
    (ps.recommendation_data_loaded = true ∧ ps1 = ps) ∨
    (ps.recommendation_data_loaded = false ∧
      ∃ df, r1 = Except.ok df ∧ ps1.tourism_df = some df) := by
  unfold load_recommendation_data at h
  repeat' split at h
  all_goals try simp_all
  all_goals (subst h; simp)

theorem process_recommendation_ok_characterize (o : Oracles) (job : Job) (ps : PState)
    (store : Store) (rd : ResultData)
    (hok : (process_recommendation o job ps store).1 = Except.ok rd) :
    ∃ uid prefs df,
      job.user_id = some uid ∧ job.preferences = some prefs ∧
      ((ps.recommendation_data_loaded = true ∧ ps.tourism_df = some df) ∨
        (ps.recommendation_data_loaded = false ∧ o.readTourism = Except.ok df)) ∧
      rd.recommendations = some ((nlargestRating (job.limit.getD 10)
        (filteredTourism prefs df)).map projectRow) := by
  unfold process_recommendation at hok
  split at hok
  case h_1 => simp_all
  case h_2 a ps1 heq =>
    rcases load_recommendation_data_ok o.readTourism o.readRating o.readUser ps a ps1 heq
      with ⟨hfl, hps⟩ | ⟨hfl, df0, hr1, hdf0⟩
    · rw [hps] at hok
      rcases hu : job.user_id with _ | uid <;> rw [hu] at hok
      · simp_all
      · rcases hp : job.preferences with _ | prefs <;> rw [hp] at hok
        · simp_all
        · rcases htd : ps.tourism_df with _ | df <;> rw [htd] at hok
          · simp_all
          · refine ⟨uid, prefs, df, rfl, rfl, Or.inl ⟨hfl, rfl⟩, ?_⟩
            simp only at hok
            injection hok with hok2
            rw [← hok2]
    · rcases hu : job.user_id with _ | uid <;> rw [hu] at hok
      · simp_all
      · rcases hp : job.preferences with _ | prefs <;> rw [hp] at hok
        · simp_all
        · rcases htd : ps1.tourism_df with _ | df <;> rw [htd] at hok
          · simp_all
          · rw [htd] at hdf0
            have hdd : df = df0 := Option.some.inj hdf0
            subst hdd
            refine ⟨uid, prefs, df, rfl, rfl, Or.inr ⟨hfl, hr1⟩, ?_⟩
            simp only at hok
            injection hok with hok2
            rw [← hok2]

/-- C6: for every recommendation job that completes, each supplied preference
key acts as a conjunctive filter: every returned record matches the supplied
category and city exactly, respects the price cap and the rating floor, and
is the projection of a dataset row; the list is sorted by rating descending,
is no longer than the requested limit (default 10), and consists of top-rated
rows (any filtered-out-of-the-result row rates no higher than any returned
record); an absent preference key imposes no constraint (the empty preference
mapping leaves the dataset unfiltered). -/
theorem recommendation_conjunctive_filter_topk (o : Oracles) (job : Job) (ps : PState)
    (store : Store) (prefs : Preferences) (df : List TourismRow) (rd : ResultData)
    (rl : List RecRecord)
    (hpref : job.preferences = some prefs)
    (hdf : (ps.recommendation_data_loaded = true ∧ ps.tourism_df = some df) ∨
           (ps.recommendation_data_loaded = false ∧ o.readTourism = Except.ok df))
    (hok : (process_recommendation o job ps store).1 = Except.ok rd)
    (hrl : rd.recommendations = some rl) :
    (∀ r ∈ rl,
      (∀ c, prefs.category = some c → r.category = c) ∧
      (∀ c, prefs.city = some c → r.city = c) ∧
      (∀ p, prefs.max_price = some p → r.price ≤ p) ∧
      (∀ q, prefs.min_rating = some q → q ≤ r.rating) ∧
      (∃ row ∈ df, r = projectRow row)) ∧
    rl.length ≤ job.limit.getD 10 ∧
    rl.Pairwise (fun a b => b.rating ≤ a.rating) ∧
    (∀ row ∈ filteredTourism prefs df, projectRow row ∉ rl →
      ∀ r ∈ rl, row.rating ≤ r.rating) ∧
    filteredTourism {} df = df := by
  obtain ⟨uid, prefs2, df2, hu, hp2, hdf2, hrl2⟩ :=
    process_recommendation_ok_characterize o job ps store rd hok
  have hprefs : prefs2 = prefs := by rw [hpref] at hp2; exact (Option.some.inj hp2).symm
  rw [hprefs] at hrl2
  have hdfeq : df2 = df := by
    rcases hdf with ⟨hfl, htd⟩ | ⟨hfl, hrt⟩ <;> rcases hdf2 with ⟨hfl2, htd2⟩ | ⟨hfl2, hrt2⟩
    · rw [htd] at htd2; exact (Option.some.inj htd2).symm
    · rw [hfl] at hfl2; exact absurd hfl2 (by simp)
    · rw [hfl] at hfl2; exact absurd hfl2 (by simp)
    · rw [hrt] at hrt2
      injection hrt2 with h2
      exact h2.symm
  rw [hdfeq] at hrl2
  have hrleq : rl = (nlargestRating (job.limit.getD 10)
      (filteredTourism prefs df)).map projectRow := by
    rw [hrl] at hrl2
    exact Option.some.inj hrl2
  subst hrleq
  refine ⟨?_, ?_, ?_, ?_, rfl⟩
  · intro r hr
    obtain ⟨row, hrow, hproj⟩ := List.mem_map.mp hr
    obtain ⟨hmem, hcat, hcity, hprice, hrat⟩ :=
      mem_filteredTourism prefs df row (nlargestRating_mem _ _ row hrow)
    subst hproj
    exact ⟨fun c hc => hcat c hc, fun c hc => hcity c hc, fun p hp => hprice p hp,
      fun q hq => hrat q hq, row, hmem, rfl⟩
  · rw [List.length_map]
    exact nlargestRating_length _ _
  · have hs := nlargestRating_sorted (job.limit.getD 10) (filteredTourism prefs df)
    exact (List.pairwise_map.mpr (hs.imp fun hab => hab))
  · intro row hrow hnot r hr
    obtain ⟨rowx, hrowx, hprojx⟩ := List.mem_map.mp hr
    have hrownot : row ∉ nlargestRating (job.limit.getD 10) (filteredTourism prefs df) := by
      intro hcontra
      exact hnot (List.mem_map.mpr ⟨row, hcontra, rfl⟩)
    have := nlargestRating_top (job.limit.getD 10) (filteredTourism prefs df) rowx row
      hrowx hrow hrownot
    rw [← hprojx]
    exact this

theorem recommendation_conjunctive_filter_topk_witness :
    (∀ r ∈ (nlargestRating (sampleRecJob.limit.getD 10)
        (filteredTourism ⟨some "Budaya", none, none, some ((45 : Rat)/10)⟩
          [sampleRow2, sampleRow1])).map projectRow,
      r.category = "Budaya" ∧ (45 : Rat)/10 ≤ r.rating) ∧
    ((nlargestRating (sampleRecJob.limit.getD 10)
        (filteredTourism ⟨some "Budaya", none, none, some ((45 : Rat)/10)⟩
          [sampleRow2, sampleRow1])).map projectRow).length ≤ 2 := by
  have h := recommendation_conjunctive_filter_topk sampleOracles sampleRecJob {} []
    ⟨some "Budaya", none, none, some ((45 : Rat)/10)⟩ [sampleRow2, sampleRow1] _ _
    rfl (Or.inr ⟨rfl, rfl⟩) rfl rfl
  exact ⟨fun r hr => ⟨(h.1 r hr).1 _ rfl, (h.1 r hr).2.2.2.1 _ rfl⟩, h.2.1⟩

/-! ## Thumbnail arithmetic lemmas and claim C8 -/

theorem div_round_bounds (n d : Nat) (hd : 0 < d) :
    n / d * d ≤ n ∧ n < n / d * d + d ∧
    (n + d - 1) / d * d ≤ n + d - 1 ∧ n ≤ (n + d - 1) / d * d := by
  have h1 := Nat.div_add_mod' n d
  have h2 : n % d < d := Nat.mod_lt _ hd
  have h3 := Nat.div_add_mod' (n + d - 1) d
  have h4 : (n + d - 1) % d < d := Nat.mod_lt _ hd
  refine ⟨?_, ?_, ?_, ?_⟩ <;> omega

theorem roundAspectX_le (y w h : Nat) (hy : 1 ≤ y) (hwh : y * w ≤ y * h) :
    roundAspectX y w h ≤ y := by
  unfold roundAspectX
  rcases Nat.eq_zero_or_pos h with h0 | hpos
  · subst h0
    have hw : y * w = 0 := by omega
    simp [hw, hy]
  · have hf : y * w / h ≤ y :=
      Nat.le_of_mul_le_mul_right (le_trans (Nat.div_mul_le_self (y * w) h) hwh) hpos
    have hc : (y * w + h - 1) / h ≤ y := by
      have h2 : (y * w + h - 1) / h < y + 1 := by
        rw [Nat.div_lt_iff_lt_mul hpos]
        have h3 : (y + 1) * h = y * h + h := by ring
        omega
      omega
    refine Nat.max_le.mpr ⟨?_, hy⟩
    split <;> assumption

theorem roundAspectY_le (x w h : Nat) (hx : 1 ≤ x) (hhw : x * h ≤ x * w) :
    roundAspectY x w h ≤ x := by
  unfold roundAspectY
  rcases Nat.eq_zero_or_pos w with h0 | hpos
  · subst h0
    have hh : x * h = 0 := by omega
    simp [hh, hx]
  · have hf : x * h / w ≤ x :=
      Nat.le_of_mul_le_mul_right (le_trans (Nat.div_mul_le_self (x * h) w) hhw) hpos
    have hc : (x * h + w - 1) / w ≤ x := by
      have h2 : (x * h + w - 1) / w < x + 1 := by
        rw [Nat.div_lt_iff_lt_mul hpos]
        have h3 : (x + 1) * w = x * w + w := by ring
        omega
      omega
    refine Nat.max_le.mpr ⟨?_, hx⟩
    split
    · assumption
    · split <;> assumption

theorem roundAspectX_aspect (y w h : Nat) (hh : 0 < h) :
    roundAspectX y w h * h ≤ y * w + h ∧ y * w ≤ roundAspectX y w h * h + h := by
  unfold roundAspectX
  obtain ⟨b1, b2, b3, b4⟩ := div_round_bounds (y * w) h hh
  have hup : ∀ p : Nat, p * h ≤ y * w + h → max p 1 * h ≤ y * w + h := by
    intro p hp
    rcases Nat.eq_zero_or_pos p with h1 | h1
    · subst h1
      simp only [Nat.max_eq_right (Nat.zero_le 1), Nat.one_mul]
      omega
    · rw [Nat.max_eq_left h1]
      exact hp
  have hlow : ∀ p : Nat, y * w ≤ p * h + h → y * w ≤ max p 1 * h + h := by
    intro p hp
    refine le_trans hp (Nat.add_le_add_right ?_ h)
    exact Nat.mul_le_mul_right h (Nat.le_max_left p 1)
  constructor
  · apply hup
    split
    · omega
    · omega
  · apply hlow
    split
    · omega
    · omega

theorem roundAspectY_aspect (x w h : Nat) (hw : 0 < w) :
    roundAspectY x w h * w ≤ x * h + w ∧ x * h ≤ roundAspectY x w h * w + w := by
  unfold roundAspectY
  obtain ⟨b1, b2, b3, b4⟩ := div_round_bounds (x * h) w hw
  have hup : ∀ p : Nat, p * w ≤ x * h + w → max p 1 * w ≤ x * h + w := by
    intro p hp
    rcases Nat.eq_zero_or_pos p with h1 | h1
    · subst h1
      simp only [Nat.max_eq_right (Nat.zero_le 1), Nat.one_mul]
      omega
    · rw [Nat.max_eq_left h1]
      exact hp
  have hlow : ∀ p : Nat, x * h ≤ p * w + w → x * h ≤ max p 1 * w + w := by
    intro p hp
    refine le_trans hp (Nat.add_le_add_right ?_ w)
    exact Nat.mul_le_mul_right w (Nat.le_max_left p 1)
  constructor
  · apply hup
    split
    · omega
    · split <;> omega
  · apply hlow
    split
    · omega
    · split <;> omega

theorem thumbnailDims_le_512 (w h : Nat) :
    (thumbnailDims w h 512 512).1 ≤ 512 ∧ (thumbnailDims w h 512 512).2 ≤ 512 := by
  unfold thumbnailDims
  split
  case isTrue hin => exact ⟨hin.1, hin.2⟩
  case isFalse hout =>
    split
    case isTrue hcond => exact ⟨roundAspectX_le 512 w h (by omega) hcond, le_refl 512⟩
    case isFalse hcond =>
      exact ⟨le_refl 512, roundAspectY_le 512 w h (by omega) (by omega)⟩

theorem thumbnailDims_aspect (w h : Nat) (hw : 1 ≤ w) (hh : 1 ≤ h) :
    thumbnailDims w h 512 512 = (w, h) ∨
    ((thumbnailDims w h 512 512).2 = 512 ∧
      (thumbnailDims w h 512 512).1 * h ≤ 512 * w + h ∧
      512 * w ≤ (thumbnailDims w h 512 512).1 * h + h) ∨
    ((thumbnailDims w h 512 512).1 = 512 ∧
      (thumbnailDims w h 512 512).2 * w ≤ 512 * h + w ∧
      512 * h ≤ (thumbnailDims w h 512 512).2 * w + w) := by
  unfold thumbnailDims
  split
  · exact Or.inl rfl
  · split
    · exact Or.inr (Or.inl ⟨rfl, (roundAspectX_aspect 512 w h hh).1,
        (roundAspectX_aspect 512 w h hh).2⟩)
    · exact Or.inr (Or.inr ⟨rfl, (roundAspectY_aspect 512 w h hw).1,
        (roundAspectY_aspect 512 w h hw).2⟩)

theorem style_trans_loaded_genCall (o : STOracles) (cb sb : String) (infl crea : Rat)
    (ap : String) (ip : Option Nat) (call : GenCall) (ci si : PilImage)
    (hci : o.decode cb = Except.ok ci) (hsi : o.decode sb = Except.ok si)
    (hcall : (style_trans_loaded o cb sb infl crea ap ip).genCall = some call) :
    call = { pil_image := thumbnail si 512 512,
             control_image := ⟨(thumbnail ci 512 512).width, (thumbnail ci 512 512).height⟩,
             prompt := styleTransPrompt ap,
             negative_prompt := styleTransNegativePrompt,
             scale := infl, guidance_scale := min crea 15, height := 512, width := 512 } := by
  unfold style_trans_loaded at hcall
  rw [hci, hsi] at hcall
  by_cases hip : o.ipHasGenerate
  · simp only [hip, if_true] at hcall
    split at hcall
    · exact (Option.some.inj hcall).symm
    · exact (Option.some.inj hcall).symm
  · simp [hip] at hcall

theorem style_trans_genCall_of_loaded (o : STOracles) (cb sb : String) (infl crea : Rat)
    (ap : String) (ip0 : Option Nat) (call : GenCall)
    (hcall : (style_trans o cb sb infl crea ap ip0).genCall = some call) :
    ∃ ip, (style_trans_loaded o cb sb infl crea ap ip).genCall = some call := by
  unfold style_trans at hcall
  rcases ip0 with _ | m
  · rcases hc : o.construct with e | m2
    · rw [show model_load o.construct none = (Except.error e, none, true) from by
        rw [hc]; rfl] at hcall
      simp at hcall
    · rw [show model_load o.construct none = (Except.ok m2, some m2, true) from by
        rw [hc]; rfl] at hcall
      exact ⟨some m2, hcall⟩
  · exact ⟨some m, hcall⟩

/-- C8: whenever `style_trans` reaches the generation collaborator, the style
image it passes (`pil_image`) is the thumbnailed style input and the
ControlNet conditioning image is the Canny map of the thumbnailed content
input — both with longest side at most 512 pixels, whatever the input sizes —
and each thumbnail either leaves an already-fitting image unchanged or
rescales it to within one pixel of the exact aspect-preserving fit. -/
theorem style_trans_longest_side_le_512 (o : STOracles) (cb sb : String)
    (influence creativity : Rat) (ap : String) (ip0 : Option Nat) (call : GenCall)
    (ci si : PilImage)
    (hci : o.decode cb = Except.ok ci) (hsi : o.decode sb = Except.ok si)
    (hcw : 1 ≤ ci.width) (hch : 1 ≤ ci.height)
    (hsw : 1 ≤ si.width) (hsh : 1 ≤ si.height)
    (hcall : (style_trans o cb sb influence creativity ap ip0).genCall = some call) :
    (call.pil_image = thumbnail si 512 512 ∧
      call.control_image.width = (thumbnail ci 512 512).width ∧
      call.control_image.height = (thumbnail ci 512 512).height) ∧
    max call.pil_image.width call.pil_image.height ≤ 512 ∧
    max call.control_image.width call.control_image.height ≤ 512 ∧
    (thumbnailDims si.width si.height 512 512 = (si.width, si.height) ∨
      ((thumbnailDims si.width si.height 512 512).2 = 512 ∧
        (thumbnailDims si.width si.height 512 512).1 * si.height ≤ 512 * si.width + si.height ∧
        512 * si.width ≤ (thumbnailDims si.width si.height 512 512).1 * si.height + si.height) ∨
      ((thumbnailDims si.width si.height 512 512).1 = 512 ∧
        (thumbnailDims si.width si.height 512 512).2 * si.width ≤ 512 * si.height + si.width ∧
        512 * si.height ≤ (thumbnailDims si.width si.height 512 512).2 * si.width + si.width)) ∧
    (thumbnailDims ci.width ci.height 512 512 = (ci.width, ci.height) ∨
      ((thumbnailDims ci.width ci.height 512 512).2 = 512 ∧
        (thumbnailDims ci.width ci.height 512 512).1 * ci.height ≤ 512 * ci.width + ci.height ∧
        512 * ci.width ≤ (thumbnailDims ci.width ci.height 512 512).1 * ci.height + ci.height) ∨
      ((thumbnailDims ci.width ci.height 512 512).1 = 512 ∧
        (thumbnailDims ci.width ci.height 512 512).2 * ci.width ≤ 512 * ci.height + ci.width ∧
        512 * ci.height ≤ (thumbnailDims ci.width ci.height 512 512).2 * ci.width + ci.width)) := by
  obtain ⟨ip, hloaded⟩ := style_trans_genCall_of_loaded o cb sb influence creativity ap ip0
    call hcall
  have hc := style_trans_loaded_genCall o cb sb influence creativity ap ip call ci si
    hci hsi hloaded
  subst hc
  refine ⟨⟨rfl, rfl, rfl⟩, ?_, ?_, thumbnailDims_aspect si.width si.height hsw hsh,
    thumbnailDims_aspect ci.width ci.height hcw hch⟩
  · have hb := thumbnailDims_le_512 si.width si.height
    exact Nat.max_le.mpr ⟨hb.1, hb.2⟩
  · have hb := thumbnailDims_le_512 ci.width ci.height
    exact Nat.max_le.mpr ⟨hb.1, hb.2⟩

theorem style_trans_longest_side_le_512_witness :
    ∃ call,
      (style_trans sampleSTOracles "CONTENT" "STYLE" 1 20 "" none).genCall = some call ∧
      max call.pil_image.width call.pil_image.height ≤ 512 ∧
      max call.control_image.width call.control_image.height ≤ 512 := by
  refine ⟨_, rfl, ?_, ?_⟩
  · exact (style_trans_longest_side_le_512 sampleSTOracles "CONTENT" "STYLE" 1 20 "" none _
      ⟨1024, 768⟩ ⟨640, 2000⟩ rfl rfl (by decide) (by decide) (by decide) (by decide) rfl).2.1
  · exact (style_trans_longest_side_le_512 sampleSTOracles "CONTENT" "STYLE" 1 20 "" none _
      ⟨1024, 768⟩ ⟨640, 2000⟩ rfl rfl (by decide) (by decide) (by decide) (by decide) rfl).2.2.1

end MultiSvc
